import Mathlib

/-!
Verification development for the polygon-area floor-plan editor
(CanvasDesigner.tsx, the mobile designer MobileCanvasDesignerV2,
MobilePolygonCanvas.tsx, FurnitureToolbar.tsx).

Coordinates are modelled as rationals (`ℚ`); the source's JavaScript numbers
are IEEE doubles, but every claim here is about exact branch structure and
small grid-integer geometry, where double and rational arithmetic agree.
JavaScript boolean conditions become decidable propositions in `if`s.
A comparison `Math.sqrt(d) < t` on nonnegative operands is modelled as
`d < t^2`, which is equivalent since squaring is monotone on nonnegatives.
`Math.round` (round half towards positive infinity) is `jsRound`.
-/

/-- A point in world (grid-pixel) coordinates, `{x, y}` in the source. -/
structure Point where
  x : ℚ
  y : ℚ
deriving DecidableEq, Repr

/-- A furniture size `{width, height}` in pixels. -/
structure Size where
  width : ℚ
  height : ℚ
deriving DecidableEq, Repr

/-- `FurnitureItem` from CanvasDesigner.tsx / the mobile designer. -/
structure FurnitureItem where
  id : String
  name : String
  position : Point
  areaId : String
  size : Size
  color : Option String
deriving DecidableEq, Repr

/-- `AreaData` from CanvasDesigner.tsx / the mobile designer.
The `furniture` field is optional (`furniture?: FurnitureItem[]`). -/
structure AreaData where
  id : String
  type : String
  points : List Point
  areaSqFt : ℚ
  color : String
  furniture : Option (List FurnitureItem)
deriving DecidableEq, Repr

/-- `GRID_SIZE = 20` (20 px = 1 ft). -/
def GRID_SIZE : ℚ := 20

/-- JavaScript `Math.round`: round half towards positive infinity. -/
def jsRound (q : ℚ) : ℤ := ⌊q + 1/2⌋

/-- `snapToGrid(value) = Math.round(value / GRID_SIZE) * GRID_SIZE`. -/
def snapToGrid (value : ℚ) : ℚ := (jsRound (value / GRID_SIZE) : ℚ) * GRID_SIZE

/-- Squared euclidean distance.  The source computes
`Math.sqrt(dx^2 + dy^2)` and compares it with a positive threshold `t`;
here such comparisons appear as `distSq p q < t^2`. -/
def distSq (p q : Point) : ℚ := (p.x - q.x) ^ 2 + (p.y - q.y) ^ 2

/-- The `colors` table of `getAreaColor` (identical in both designers). -/
def areaColorTable : List (String × String) :=
  [ ("bedroom", "#3b82f6")
  , ("washroom", "#06b6d4")
  , ("kitchen", "#ef4444")
  , ("living-room", "#10b981")
  , ("balcony", "#84cc16")
  , ("lobby", "#f59e0b")
  , ("stairs", "#6b7280")
  , ("entrance", "#8b5cf6") ]

/-- `getAreaColor(areaType)`: table lookup with gray fallback. -/
def getAreaColor (areaType : String) : String :=
  ((areaColorTable.find? (fun kv => kv.1 == areaType)).map Prod.snd).getD ("#6b7280")

/-- Shoelace accumulator of `calculatePolygonArea`:
`for i, j := (i+1) % n: area += x_i*y_j - x_j*y_i`. -/
def shoelaceSum (points : List Point) : ℚ :=
  (List.range points.length).foldl
    (fun acc i =>
      let p := points.getD i ⟨0, 0⟩
      let q := points.getD ((i + 1) % points.length) ⟨0, 0⟩
      acc + p.x * q.y - q.x * p.y)
    0

/-- `calculatePolygonArea(points)`: 0 for fewer than 3 points, else the
absolute shoelace sum halved, converted from px² to ft² and rounded.
The desktop and mobile components contain the same computation. -/
def calculatePolygonArea (points : List Point) : ℚ :=
  if points.length < 3 then 0
  else (jsRound ((|shoelaceSum points| / 2) / (GRID_SIZE * GRID_SIZE)) : ℚ)

/-- One iteration of the `isPointInPolygon` crossing loop for vertex index `i`,
with `j` the predecessor index (wrapping to the last vertex for `i = 0`). -/
def pipStep (point : Point) (polygon : List Point) (inside : Bool) (i : ℕ) : Bool :=
  let j := if i = 0 then polygon.length - 1 else i - 1
  let pi := polygon.getD i ⟨0, 0⟩
  let pj := polygon.getD j ⟨0, 0⟩
  if (¬((pi.y > point.y) ↔ (pj.y > point.y))) ∧
     point.x < (pj.x - pi.x) * (point.y - pi.y) / (pj.y - pi.y) + pi.x then
    !inside
  else inside

/-- `isPointInPolygon(point, polygon)`: even-odd ray casting. -/
def isPointInPolygon (point : Point) (polygon : List Point) : Bool :=
  (List.range polygon.length).foldl (pipStep point polygon) false

/-- `getFurnitureCorners(center, size)`: tl, tr, bl, br corners. -/
def getFurnitureCorners (center : Point) (size : Size) : List Point :=
  let halfW := size.width / 2
  let halfH := size.height / 2
  [ ⟨center.x - halfW, center.y - halfH⟩
  , ⟨center.x + halfW, center.y - halfH⟩
  , ⟨center.x - halfW, center.y + halfH⟩
  , ⟨center.x + halfW, center.y + halfH⟩ ]

/-- `areCornersInsideArea(areaPoints, center, size)`: all four corners pass
`isPointInPolygon`. -/
def areCornersInsideArea (areaPoints : List Point) (center : Point) (size : Size) : Bool :=
  (getFurnitureCorners center size).all (fun corner => isPointInPolygon corner areaPoints)

/-- AABB hit test of `getFurnitureAtPoint`: the point lies within half the
size of the furniture centre in both axes (closed intervals). -/
def furnitureContainsPoint (furniture : FurnitureItem) (point : Point) : Bool :=
  let halfWidth := furniture.size.width / 2
  let halfHeight := furniture.size.height / 2
  if point.x ≥ furniture.position.x - halfWidth ∧
     point.x ≤ furniture.position.x + halfWidth ∧
     point.y ≥ furniture.position.y - halfHeight ∧
     point.y ≤ furniture.position.y + halfHeight then true else false

/-- `getFurnitureAtPoint(point)`: scan areas in registration order and each
area's furniture in list order, returning the first AABB hit. -/
def getFurnitureAtPoint (areas : List AreaData) (point : Point) : Option FurnitureItem :=
  areas.findSome? (fun area =>
    (area.furniture.getD []).find? (fun furniture => furnitureContainsPoint furniture point))

/-- `areas.flatMap(a => a.furniture || [])`, the furniture lookup flattening
used by the drag/resize handlers. -/
def allFurniture (areas : List AreaData) : List FurnitureItem :=
  areas.flatMap (fun a => a.furniture.getD [])

/-- `resizeFurniture(furnitureId, newSize)`: map over every area and set the
size of every furniture item whose id matches, leaving everything else
untouched (no geometric check of any kind). -/
def resizeFurniture (areas : List AreaData) (furnitureId : String) (newSize : Size) :
    List AreaData :=
  areas.map (fun area =>
    { area with furniture := area.furniture.map (List.map (fun furniture =>
        if furniture.id = furnitureId then { furniture with size := newSize } else furniture)) })

/-- The four corner-handle keys `"nw" | "ne" | "sw" | "se"`. -/
inductive ResizeHandle where
  | nw
  | ne
  | sw
  | se
deriving DecidableEq, Repr

/-- `resizeHandle.includes('e')`. -/
def ResizeHandle.hasE : ResizeHandle → Bool
  | .ne => true
  | .se => true
  | _ => false

/-- `resizeHandle.includes('w')`. -/
def ResizeHandle.hasW : ResizeHandle → Bool
  | .nw => true
  | .sw => true
  | _ => false

/-- `resizeHandle.includes('s')`. -/
def ResizeHandle.hasS : ResizeHandle → Bool
  | .sw => true
  | .se => true
  | _ => false

/-- `resizeHandle.includes('n')`. -/
def ResizeHandle.hasN : ResizeHandle → Bool
  | .nw => true
  | .ne => true
  | _ => false

/-- The slice of CanvasDesigner state consulted or mutated by
`handleCanvasMouseMove`. -/
structure MouseState where
  areas : List AreaData
  isResizingFurniture : Bool
  resizingFurnitureId : Option String
  resizeHandle : Option ResizeHandle
  isDraggingFurniture : Bool
  draggedFurniture : Option String
deriving Repr

/-- The candidate size computed by the resize branch of
`handleCanvasMouseMove`: each axis touched by the handle is replaced by twice
the displacement of the cursor from the fixed centre, clamped to `[20, 300]`. -/
def proposedResize (handle : ResizeHandle) (item : FurnitureItem) (point : Point) : Size :=
  let w1 := if handle.hasE then max 20 (min 300 ((point.x - item.position.x) * 2))
            else item.size.width
  let w2 := if handle.hasW then max 20 (min 300 ((item.position.x - point.x) * 2)) else w1
  let h1 := if handle.hasS then max 20 (min 300 ((point.y - item.position.y) * 2))
            else item.size.height
  let h2 := if handle.hasN then max 20 (min 300 ((item.position.y - point.y) * 2)) else h1
  ⟨w2, h2⟩

/-- `handleCanvasMouseMove(e)` of CanvasDesigner with `point = getMousePos(e)`
already computed.  Resize branch: look the item up by id, look its area up by
`areaId`, build the candidate size, and mutate through `resizeFurniture` only
if `areCornersInsideArea` accepts it.  Drag branch: mutate the position to
`point` only if `areCornersInsideArea` accepts the rectangle there.
`mouseMoveDrag` is the drag block that runs when the resize guard fails. -/
def mouseMoveDrag (s : MouseState) (point : Point) : MouseState :=
  match s.isDraggingFurniture, s.draggedFurniture with
  | true, some did =>
    match (allFurniture s.areas).find? (fun f => f.id == did) with
    | none => s
    | some draggedItem =>
      match s.areas.find? (fun a => a.id == draggedItem.areaId) with
      | none => s
      | some area =>
        if areCornersInsideArea area.points point draggedItem.size then
          { s with areas := s.areas.map (fun a =>
              { a with furniture := a.furniture.map (List.map (fun furniture =>
                  if furniture.id = did then { furniture with position := point }
                  else furniture)) }) }
        else s
  | _, _ => s

def handleCanvasMouseMove (s : MouseState) (point : Point) : MouseState :=
  match s.isResizingFurniture, s.resizingFurnitureId, s.resizeHandle with
  | true, some rid, some handle =>
    match (allFurniture s.areas).find? (fun f => f.id == rid) with
    | none => s
    | some item =>
      match s.areas.find? (fun a => a.id == item.areaId) with
      | none => s
      | some area =>
        let proposed := proposedResize handle item point
        if areCornersInsideArea area.points item.position proposed then
          { s with areas := resizeFurniture s.areas item.id proposed }
        else s
  | _, _, _ => mouseMoveDrag s point

/-- Fold a sequence of pointer-move events through `handleCanvasMouseMove`. -/
def applyMouseMoves (s : MouseState) (moves : List Point) : MouseState :=
  moves.foldl handleCanvasMouseMove s

/-- All furniture ids in the registry are distinct (the app allocates ids from
`Date.now()`; every claim about "the item with that id" presupposes this). -/
def uniqueFurnitureIds (areas : List AreaData) : Prop :=
  ((allFurniture areas).map FurnitureItem.id).Nodup

/-- The polygon of the area the item's `areaId` back-reference designates,
looked up exactly as the handlers do (`areas.find(a => a.id === f.areaId)`). -/
def ownerPolygon (areas : List AreaData) (f : FurnitureItem) : List Point :=
  ((areas.find? (fun a => a.id == f.areaId)).map AreaData.points).getD []

/-- The `interactionMode` union type of CanvasDesigner. -/
inductive InteractionMode where
  | area
  | furniture
  | editing
deriving DecidableEq, Repr

/-- The slice of CanvasDesigner state consulted or mutated by
`handleCanvasClick` and `placeFurniture`. -/
structure ClickState where
  areas : List AreaData
  selectedAreaType : String
  isDrawingPolygon : Bool
  currentPolygon : List Point
  isPlacingFurniture : Bool
  selectedFurniture : Option String
  selectedArea : Option String
  selectedFurnitureItem : Option String
  showResizeHandles : Option String
  interactionMode : InteractionMode
  lastClickTime : ℤ
deriving Repr

/-- The `defaultColors` table of `placeFurniture`. -/
def defaultFurnitureColors : List (String × String) :=
  [ ("bed", "#8B4513")
  , ("wardrobe", "#654321")
  , ("dresser", "#A0522D")
  , ("nightstand", "#DEB887")
  , ("sofa", "#4A90E2")
  , ("chair", "#50C878")
  , ("table", "#DEB887")
  , ("tv", "#2C2C2C")
  , ("sink", "#808080")
  , ("refrigerator", "#2C3E50")
  , ("stove", "#C0392B") ]

/-- `defaultColors[name.toLowerCase()] || "#8B4513"`. -/
def defaultFurnitureColor (name : String) : String :=
  ((defaultFurnitureColors.find? (fun kv => kv.1 == name.toLower)).map Prod.snd).getD ("#8B4513")

/-- `placeFurniture(position)` of CanvasDesigner.  Requires a pending catalog
selection and target area; checks only that the tapped centre `position` is
inside the target polygon (`isPointInPolygon`), then appends a 30×30 item
centred there.  `now` supplies the `Date.now()` id suffix. -/
def placeFurniture (s : ClickState) (position : Point) (now : ℤ) : ClickState :=
  match s.selectedFurniture, s.selectedArea with
  | some selFurn, some selArea =>
    match s.areas.find? (fun a => a.id == selArea) with
    | some area =>
      if isPointInPolygon position area.points then
        let furnitureItem : FurnitureItem :=
          { id := "furniture-" ++ toString now
          , name := selFurn
          , position := position
          , areaId := selArea
          , size := ⟨30, 30⟩
          , color := some (defaultFurnitureColor selFurn) }
        { s with
          areas := s.areas.map (fun area =>
            if area.id = selArea then
              { area with furniture := some (area.furniture.getD [] ++ [furnitureItem]) }
            else area)
          , selectedFurniture := none
          , selectedArea := none
          , isPlacingFurniture := false }
      else s
    | none => s
  | _, _ => s

/-- `handleCanvasClick(e)` of CanvasDesigner with `point = getMousePos(e)`
already computed and `now = Date.now()`.  Order of business: double-click
bookkeeping, furniture-placement mode, furniture hit selection, then polygon
drawing (close when ≥3 points are accumulated and the tap is within 10 px of
the first vertex, otherwise append the point; start a polygon when idle). -/
def handleCanvasClick (s0 : ClickState) (point : Point) (now : ℤ) : ClickState :=
  let isDoubleClick := now - s0.lastClickTime < 300
  let s := { s0 with lastClickTime := now }
  if s.isPlacingFurniture then placeFurniture s point now
  else
    match getFurnitureAtPoint s.areas point with
    | some clickedFurniture =>
      if isDoubleClick ∧ s.selectedFurnitureItem = some clickedFurniture.id then
        { s with showResizeHandles :=
            if s.showResizeHandles = some clickedFurniture.id then none
            else some clickedFurniture.id }
      else
        { s with selectedFurnitureItem := some clickedFurniture.id
               , showResizeHandles := none
               , interactionMode := InteractionMode.furniture }
    | none =>
      let s := { s with selectedFurnitureItem := none, showResizeHandles := none }
      if s.interactionMode ≠ InteractionMode.area then s
      else if s.isDrawingPolygon then
        if 2 < s.currentPolygon.length ∧
           distSq point (s.currentPolygon.headD ⟨0, 0⟩) < 10 ^ 2 then
          let areaSqFt := calculatePolygonArea s.currentPolygon
          let newArea : AreaData :=
            { id := "area-" ++ toString now
            , type := s.selectedAreaType
            , points := s.currentPolygon
            , areaSqFt := areaSqFt
            , color := getAreaColor s.selectedAreaType
            , furniture := none }
          { s with areas := s.areas ++ [newArea]
                 , currentPolygon := []
                 , isDrawingPolygon := false }
        else { s with currentPolygon := s.currentPolygon ++ [point] }
      else { s with currentPolygon := [point], isDrawingPolygon := true }

/-- Fold a sequence of click events (tap point and `Date.now()` timestamp)
through `handleCanvasClick`. -/
def applyClicks (s : ClickState) (events : List (Point × ℤ)) : ClickState :=
  events.foldl (fun s e => handleCanvasClick s e.1 e.2) s

/-- `getMousePos(e)` of CanvasDesigner: canvas-relative client coordinates
are divided by the zoom, shifted by the pan offset, and snapped to the grid. -/
def getMousePos (zoomLevel : ℚ) (panOffset : Point) (client : Point)
    (rectLeft rectTop : ℚ) : Point :=
  let x := (client.x - rectLeft) / zoomLevel - panOffset.x
  let y := (client.y - rectTop) / zoomLevel - panOffset.y
  ⟨snapToGrid x, snapToGrid y⟩

/-- `toScreenX(wx) = (wx + panOffset.x) * zoomLevel`. -/
def toScreenX (panOffset : Point) (zoomLevel : ℚ) (wx : ℚ) : ℚ :=
  (wx + panOffset.x) * zoomLevel

/-- `toScreenY(wy) = (wy + panOffset.y) * zoomLevel`. -/
def toScreenY (panOffset : Point) (zoomLevel : ℚ) (wy : ℚ) : ℚ :=
  (wy + panOffset.y) * zoomLevel

/-- A pending mobile furniture placement `{name, areaId}`. -/
structure PendingFurniture where
  name : String
  areaId : String
deriving DecidableEq, Repr

/-- A scheduled long-press `setTimeout` handle: the absolute time at which the
600 ms callback fires and the canvas point captured by its closure. -/
structure LongPressTimer where
  fireAt : ℤ
  point : Point
deriving DecidableEq, Repr

/-- The slice of MobileCanvasDesignerV2 state consulted or mutated by
`handleCanvasTouch`, `handleCanvasTap` and `handleLongPress`. -/
structure MobileState where
  areas : List AreaData
  selectedAreaType : String
  isDrawingPolygon : Bool
  currentPolygon : List Point
  isPlacingFurniture : Bool
  pendingFurniture : Option PendingFurniture
  selectedFurnitureItem : Option String
  editPanelOpen : Bool
  editingFurniture : Option FurnitureItem
  longPressTimer : Option LongPressTimer
  touchStartPos : Point
  touchStartTime : ℤ
  highlightedCell : Option Point
  zoomLevel : ℚ
  panOffset : Point
deriving Repr

/-- `getCanvasPoint(clientX, clientY)` of MobileCanvasDesignerV2: identical
transform to the desktop `getMousePos`. -/
def getCanvasPoint (zoomLevel : ℚ) (panOffset : Point) (client : Point)
    (rectLeft rectTop : ℚ) : Point :=
  let x := (client.x - rectLeft) / zoomLevel - panOffset.x
  let y := (client.y - rectTop) / zoomLevel - panOffset.y
  ⟨snapToGrid x, snapToGrid y⟩

/-- The part of `handleCanvasTap` after the placement branch: furniture
selection, deselection, and the polygon-drawing state machine. -/
def mobileTapAfterPlacement (s : MobileState) (point : Point) (now : ℤ) : MobileState :=
  match getFurnitureAtPoint s.areas point with
  | some furniture => { s with selectedFurnitureItem := some furniture.id }
  | none =>
    let s := { s with selectedFurnitureItem := none }
    if ¬ s.isDrawingPolygon then
      { s with isDrawingPolygon := true, currentPolygon := [point] }
    else if distSq point (s.currentPolygon.headD ⟨0, 0⟩) < 40 ^ 2 ∧
            3 ≤ s.currentPolygon.length then
      let newArea : AreaData :=
        { id := "area-" ++ toString now
        , type := s.selectedAreaType
        , points := s.currentPolygon
        , areaSqFt := calculatePolygonArea s.currentPolygon
        , color := getAreaColor s.selectedAreaType
        , furniture := some [] }
      { s with areas := s.areas ++ [newArea]
             , currentPolygon := []
             , isDrawingPolygon := false }
    else { s with currentPolygon := s.currentPolygon ++ [point] }

/-- `handleCanvasTap(point)` of MobileCanvasDesignerV2: pending placement
first (`isPlacingFurniture && pendingFurniture`; centre-only
`isPointInPolygon` check, 60×40 default size), otherwise fall through to
furniture AABB selection and polygon drawing with a 40 px close threshold
requiring at least 3 accumulated points (mobile areas are created with
`furniture: []`). -/
def handleCanvasTap (s : MobileState) (point : Point) (now : ℤ) : MobileState :=
  match s.isPlacingFurniture, s.pendingFurniture with
  | true, some pending =>
    (match s.areas.find? (fun a => a.id == pending.areaId) with
    | some targetArea =>
      if isPointInPolygon point targetArea.points then
        let newFurniture : FurnitureItem :=
          { id := "furniture-" ++ toString now
          , name := pending.name
          , position := point
          , areaId := pending.areaId
          , size := ⟨60, 40⟩
          , color := some ("#8B4513") }
        { s with
          areas := s.areas.map (fun area =>
            if area.id = pending.areaId then
              { area with furniture := some (area.furniture.getD [] ++ [newFurniture]) }
            else area)
          , isPlacingFurniture := false
          , pendingFurniture := none }
      else s
    | none => s)
  | _, _ => mobileTapAfterPlacement s point now

/-- Fold a sequence of mobile tap events through `handleCanvasTap`. -/
def applyTaps (s : MobileState) (events : List (Point × ℤ)) : MobileState :=
  events.foldl (fun s e => handleCanvasTap s e.1 e.2) s

/-- `handleLongPress(point)` of MobileCanvasDesignerV2: AABB scan over all
furniture; on a hit, select it and open the edit panel. -/
def handleLongPress (s : MobileState) (point : Point) : MobileState :=
  match getFurnitureAtPoint s.areas point with
  | some furniture =>
    { s with selectedFurnitureItem := some furniture.id
           , editingFurniture := some furniture
           , editPanelOpen := true }
  | none => s

/-- The touch event kinds handled by `handleCanvasTouch` (the analogous
`mousedown`/`mousemove`/`mouseup` branches never schedule the long-press
timer — `isTouchEvent` is false there — and are suppressed on touch devices
by the handler's `preventDefault`, so they are not modelled). -/
inductive TouchKind where
  | touchstart
  | touchmove
  | touchend
deriving DecidableEq, Repr

/-- `handleCanvasTouch(e)` of MobileCanvasDesignerV2 for touch events.
`touches` is the event's `e.touches` list (for `touchend` of the last finger
this list is empty — the handler reads `e.touches`, not `e.changedTouches`).
The handler returns early unless exactly one touch is listed; `touchstart`
schedules the 600 ms long-press timer, `touchmove` and `touchend` clear it,
and `touchend` runs tap detection (movement < 20 px and duration < 500 ms).
The 200 ms delayed highlight clear is a separate timer, irrelevant to the
claims, and is not modelled. -/
def handleCanvasTouchV2 (s : MobileState) (kind : TouchKind) (touches : List Point)
    (rectLeft rectTop : ℚ) (now : ℤ) : MobileState :=
  if touches.length ≠ 1 then s
  else
    let point := getCanvasPoint s.zoomLevel s.panOffset (touches.headD ⟨0, 0⟩) rectLeft rectTop
    match kind with
    | .touchstart =>
      { s with touchStartPos := point
             , touchStartTime := now
             , highlightedCell := some point
             , longPressTimer := some ⟨now + 600, point⟩ }
    | .touchend =>
      let s := { s with longPressTimer := none }
      let timeDiff := now - s.touchStartTime
      if distSq point s.touchStartPos < 20 ^ 2 ∧ timeDiff < 500 then
        handleCanvasTap s point now
      else s
    | .touchmove =>
      { s with longPressTimer := none, highlightedCell := some point }

/-- The host's timer expiry: if a long-press timer is pending and its deadline
has been reached, the callback `handleLongPress(point)` executes.  Returns
the resulting state and whether the callback ran. -/
def fireLongPressIfDue (s : MobileState) (now : ℤ) : MobileState × Bool :=
  match s.longPressTimer with
  | some timer => if timer.fireAt ≤ now then (handleLongPress s timer.point, true) else (s, false)
  | none => (s, false)

/-- Parsed JSON values (the result of `JSON.parse` on an import file). -/
inductive Json where
  | null : Json
  | bool (b : Bool) : Json
  | num (q : ℚ) : Json
  | str (s : String) : Json
  | arr (elems : List Json) : Json
  | obj (fields : List (String × Json)) : Json
deriving Repr

/-- JavaScript property access `j.key`: `none` models `undefined`. -/
def jGet (j : Json) (key : String) : Option Json :=
  match j with
  | .obj fields => (fields.find? (fun kv => kv.1 == key)).map Prod.snd
  | _ => none

/-- Optional-chained access `o?.key`. -/
def jGetOpt (o : Option Json) (key : String) : Option Json :=
  o.bind (fun j => jGet j key)

/-- JavaScript truthiness of a possibly-`undefined` value. -/
def jTruthy : Option Json → Bool
  | none => false
  | some Json.null => false
  | some (Json.bool b) => b
  | some (Json.num q) => if q = 0 then false else true
  | some (Json.str s) => if s = "" then false else true
  | some (Json.arr _) => true
  | some (Json.obj _) => true

/-- `Array.isArray` of a possibly-`undefined` value. -/
def jIsArray : Option Json → Bool
  | some (Json.arr _) => true
  | _ => false

/-- The elements of an array value (`[]` otherwise; the callers guard with
`x || []` or `Array.isArray`). -/
def jElems : Option Json → List Json
  | some (Json.arr elems) => elems
  | _ => []

/-- The string content of a string value (`""` otherwise; callers reach this
only behind truthiness guards on fields expected to be strings). -/
def jString : Option Json → String
  | some (Json.str s) => s
  | _ => ""

/-- The numeric content of a number value. -/
def jNumQ : Option Json → Option ℚ
  | some (Json.num q) => some q
  | _ => none

/-- Numeric coercion with default 0.  JavaScript would propagate `NaN` (or
coerce strings) when a non-number lands in a numeric position; no claim
depends on such inputs, and they are modelled as 0. -/
def jQ (o : Option Json) : ℚ := (jNumQ o).getD 0

/-- Nullish coalescing `a ?? rhs` followed by numeric use, where `rhs` is
already a number. -/
def jNullishNum (a : Option Json) (rhs : ℚ) : ℚ :=
  match a with
  | none => rhs
  | some Json.null => rhs
  | some v => jQ (some v)

/-- One imported point of `handleImportFile`:
`(Array.isArray(p) ? p[0] : p.xFt ?? p.x) * GRID_SIZE` and likewise for y. -/
def importPoint (p : Json) : Point :=
  match p with
  | .arr elems =>
    ⟨jQ (some (elems.getD 0 Json.null)) * GRID_SIZE, jQ (some (elems.getD 1 Json.null)) * GRID_SIZE⟩
  | _ =>
    ⟨jNullishNum (jGet p ("xFt")) (jQ (jGet p ("x"))) * GRID_SIZE,
     jNullishNum (jGet p ("yFt")) (jQ (jGet p ("y"))) * GRID_SIZE⟩

/-- One imported furniture item of `handleImportFile`.  The source draws
fallback ids from `crypto.randomUUID()`/`Math.random()`; the model takes the
caller's `now` tag (ids are opaque to every claim). -/
def importFurniture (areaId : String) (now : ℤ) (f : Json) : FurnitureItem :=
  let pos := jGet f ("position")
  let sizeJ := jGet f ("size")
  let posXFt := jNullishNum (jGetOpt pos ("xFt"))
    (match jNumQ (jGetOpt pos ("x")) with | some q => q / GRID_SIZE | none => 0)
  let posYFt := jNullishNum (jGetOpt pos ("yFt"))
    (match jNumQ (jGetOpt pos ("y")) with | some q => q / GRID_SIZE | none => 0)
  let widthFt := jNullishNum (jGetOpt sizeJ ("widthFt"))
    (match jNumQ (jGetOpt sizeJ ("width")) with | some q => q / GRID_SIZE | none => 3/2)
  let heightFt := jNullishNum (jGetOpt sizeJ ("heightFt"))
    (match jNumQ (jGetOpt sizeJ ("height")) with | some q => q / GRID_SIZE | none => 3/2)
  { id := if jTruthy (jGet f ("id")) then jString (jGet f ("id"))
          else "furniture-" ++ toString now
  , name := if jTruthy (jGet f ("name")) then jString (jGet f ("name")) else "item"
  , color := if jTruthy (jGet f ("color")) then some (jString (jGet f ("color"))) else none
  , position := ⟨posXFt * GRID_SIZE, posYFt * GRID_SIZE⟩
  , size := ⟨max 10 (widthFt * GRID_SIZE), max 10 (heightFt * GRID_SIZE)⟩
  , areaId := areaId }

/-- One imported area of `handleImportFile`. -/
def importArea (now : ℤ) (a : Json) : AreaData :=
  let id := if jTruthy (jGet a ("id")) then jString (jGet a ("id"))
            else "area-" ++ toString now
  let points := (jElems (jGet a ("points"))).map importPoint
  { id := id
  , type := jString (jGet a ("type"))
  , points := points
  , areaSqFt := if jTruthy (jGet a ("areaSqFt")) then jQ (jGet a ("areaSqFt"))
                else calculatePolygonArea points
  , color := if jTruthy (jGet a ("color")) then jString (jGet a ("color"))
             else getAreaColor (jString (jGet a ("type")))
  , furniture := some ((jElems (jGet a ("furniture"))).map (importFurniture id now)) }

/-- Inputs on which the conversion body of `handleImportFile` would raise a
`TypeError` in JavaScript (caught by the surrounding `try`, leaving the
registry untouched): a `null` area element, a truthy non-array `points` or
`furniture` field (`.map` on a non-array), or a `null` element inside them
(property access on `null`). -/
def importAreaThrows (a : Json) : Bool :=
  match a with
  | .null => true
  | _ =>
    if (jTruthy (jGet a ("points")) ∧ jIsArray (jGet a ("points")) = false) ∨
       (jTruthy (jGet a ("furniture")) ∧ jIsArray (jGet a ("furniture")) = false) ∨
       (jElems (jGet a ("points"))).any (fun p => match p with | .null => true | _ => false) ∨
       (jElems (jGet a ("furniture"))).any (fun f => match f with | .null => true | _ => false)
    then true else false

/-- `handleImportFile` of CanvasDesigner on parsed JSON `data`: reject with a
user-visible failure and leave the registry untouched unless `data.areas` is
present and an array (`!data.areas || !Array.isArray(data.areas)`); also
leave it untouched when the conversion throws (caught by `try`).  Otherwise
replace the whole registry with the converted areas.  The boolean reports
whether `setAreas` ran. -/
def handleImportFile (data : Json) (old : List AreaData) (now : ℤ) :
    List AreaData × Bool :=
  if jTruthy (jGet data ("areas")) = false ∨ jIsArray (jGet data ("areas")) = false then
    (old, false)
  else
    let elems := jElems (jGet data ("areas"))
    if elems.any importAreaThrows then (old, false)
    else (elems.map (importArea now), true)

/-- `handleImportJSON` of MobileCanvasDesignerV2 on parsed JSON `data`:
`if (data.areas) setAreas(data.areas)` — truthiness is the only check, the
raw value is stored as-is, and a missing `areas` field is silently ignored
(no failure is surfaced).  `some v` models `setAreas(v)` being called. -/
def handleImportJSONMobile (data : Json) : Option Json :=
  if jTruthy (jGet data ("areas")) then jGet data ("areas") else none

/-- The unit-square test polygon of the point-in-polygon test cases. -/
def squarePolygon : List Point := [⟨0, 0⟩, ⟨10, 0⟩, ⟨10, 10⟩, ⟨0, 10⟩]

/-- A drawing session holding exactly the three points
`[(0,0),(100,0),(100,100)]`, about to receive the closing tap. -/
def drawingTriangleState : ClickState :=
  { areas := []
  , selectedAreaType := "bedroom"
  , isDrawingPolygon := true
  , currentPolygon := [⟨0, 0⟩, ⟨100, 0⟩, ⟨100, 100⟩]
  , isPlacingFurniture := false
  , selectedFurniture := none
  , selectedArea := none
  , selectedFurnitureItem := none
  , showResizeHandles := none
  , interactionMode := InteractionMode.area
  , lastClickTime := 0 }

/-- A drawing session holding only two points, about to receive a tap near
its first point. -/
def twoPointState : ClickState :=
  { drawingTriangleState with currentPolygon := [⟨0, 0⟩, ⟨100, 0⟩] }

/-- A right-triangle room: hypotenuse `x + y = 100`. -/
def triangleAreaPoints : List Point := [⟨0, 0⟩, ⟨100, 0⟩, ⟨0, 100⟩]

/-- A registry area over `triangleAreaPoints` with no furniture yet. -/
def triangleArea : AreaData :=
  { id := "A"
  , type := "bedroom"
  , points := triangleAreaPoints
  , areaSqFt := 13
  , color := "#3b82f6"
  , furniture := some [] }

/-- Placement mode pending over the triangle room. -/
def placingBedState : ClickState :=
  { areas := [triangleArea]
  , selectedAreaType := "bedroom"
  , isDrawingPolygon := false
  , currentPolygon := []
  , isPlacingFurniture := true
  , selectedFurniture := some ("bed")
  , selectedArea := some ("A")
  , selectedFurnitureItem := none
  , showResizeHandles := none
  , interactionMode := InteractionMode.furniture
  , lastClickTime := 0 }

/-- An idle mobile designer state (default zoom of the claims: 1, no pan). -/
def mobileIdleState : MobileState :=
  { areas := []
  , selectedAreaType := "bedroom"
  , isDrawingPolygon := false
  , currentPolygon := []
  , isPlacingFurniture := false
  , pendingFurniture := none
  , selectedFurnitureItem := none
  , editPanelOpen := false
  , editingFurniture := none
  , longPressTimer := none
  , touchStartPos := ⟨0, 0⟩
  , touchStartTime := 0
  , highlightedCell := none
  , zoomLevel := 1
  , panOffset := ⟨0, 0⟩ }

/-- Default used for out-of-range `getD` list indexing in theorem statements. -/
def defaultArea : AreaData :=
  { id := "", type := "", points := [], areaSqFt := 0, color := "", furniture := none }

/-- Default used for out-of-range `getD` list indexing in theorem statements. -/
def defaultFurnitureItem : FurnitureItem :=
  { id := "", name := "", position := ⟨0, 0⟩, areaId := "A"
  , size := ⟨0, 0⟩, color := none }

/-- A 30×30 bed centred at `(40,40)` inside the triangle room. -/
def demoBed : FurnitureItem :=
  { id := "bed1", name := "bed", position := ⟨40, 40⟩, areaId := "A"
  , size := ⟨30, 30⟩, color := none }

/-- The triangle room holding `demoBed`. -/
def demoAreas : List AreaData := [{ triangleArea with furniture := some [demoBed] }]

/-- A mouse state mid-way through a south-east corner-handle resize of
`demoBed`. -/
def demoResizeState : MouseState :=
  { areas := demoAreas
  , isResizingFurniture := true
  , resizingFurnitureId := some ("bed1")
  , resizeHandle := some ResizeHandle.se
  , isDraggingFurniture := false
  , draggedFurniture := none }

/-- The frame condition of one resize event on the furniture item with id
`rid`: the item keeps its id, name, position, colour and area back-reference;
only its size may change, and only for the item being resized. -/
def FurnFrame (rid : String) (f fNew : FurnitureItem) : Prop :=
  fNew.id = f.id ∧ fNew.name = f.name ∧ fNew.position = f.position ∧
  fNew.color = f.color ∧ fNew.areaId = f.areaId ∧ (f.id ≠ rid → fNew.size = f.size)

/-- The frame condition of one resize event on an area: every field except the
furniture list is unchanged, and the furniture lists correspond pointwise by
`FurnFrame`. -/
def AreaFrame (rid : String) (a aNew : AreaData) : Prop :=
  aNew.id = a.id ∧ aNew.type = a.type ∧ aNew.points = a.points ∧
  aNew.areaSqFt = a.areaSqFt ∧ aNew.color = a.color ∧
  aNew.furniture.isSome = a.furniture.isSome ∧
  List.Forall₂ (FurnFrame rid) (a.furniture.getD []) (aNew.furniture.getD [])

/-- C6: for the square `[(0,0),(10,0),(10,10),(0,10)]` the point-in-polygon
test returns `true` at `(5,5)`, `false` at `(15,5)`, `false` at `(-1,-1)`,
and the fixed, deterministic value `true` at the boundary point `(0,5)` (the
left edge is counted inside by the strict/non-strict inequality choices of
the even-odd rule; the function is pure, so every evaluation agrees). -/
theorem pointInPolygon_square_cases :
    isPointInPolygon ⟨5, 5⟩ squarePolygon = true ∧
    isPointInPolygon ⟨15, 5⟩ squarePolygon = false ∧
    isPointInPolygon ⟨-1, -1⟩ squarePolygon = false ∧
    isPointInPolygon ⟨0, 5⟩ squarePolygon = true := by
  refine ⟨?_, ?_, ?_, ?_⟩ <;>
    norm_num [isPointInPolygon, pipStep, squarePolygon, List.range_succ]

/-- C3 counterexample: the closing tap on `[(0,0),(100,0),(100,100)]` does
create the area, but its `areaSqFt` is 13 — the rounded 5000 px² shoelace
area over `gridSize² = 400` — not `round(10000/gridSize²) = 25` as the claim
states (the claim drops the ½ factor of the shoelace formula). -/
theorem close_polygon_areaSqFt_differs :
    (handleCanvasClick drawingTriangleState ⟨5, 5⟩ 1000).areas.map AreaData.areaSqFt = [13] ∧
    (jsRound ((10000 : ℚ) / (GRID_SIZE * GRID_SIZE)) : ℚ) = 25 ∧
    (13 : ℚ) ≠ 25 := by
  refine ⟨?_, ?_, by norm_num⟩
  · norm_num [handleCanvasClick, drawingTriangleState, getFurnitureAtPoint, placeFurniture,
      distSq, calculatePolygonArea, shoelaceSum, List.range_succ, jsRound, GRID_SIZE]
  · norm_num [jsRound, GRID_SIZE]

/-- C3 amended: with session points `[(0,0),(100,0),(100,100)]` and a tap at
`(5,5)` (within the 10 px close threshold of the first point), the session
closes: exactly one area is created, its points are exactly those 3 points,
its `areaSqFt` is `round(5000/gridSize²) = 13` (the shoelace area of the
triangle is 5000 px², not 10000), and the session returns to the idle state
with an empty working point list. -/
theorem close_polygon_triangle_session :
    (handleCanvasClick drawingTriangleState ⟨5, 5⟩ 1000).areas.map AreaData.points
      = [[⟨0, 0⟩, ⟨100, 0⟩, ⟨100, 100⟩]] ∧
    (handleCanvasClick drawingTriangleState ⟨5, 5⟩ 1000).areas.map AreaData.areaSqFt
      = [(jsRound ((5000 : ℚ) / (GRID_SIZE * GRID_SIZE)) : ℚ)] ∧
    (handleCanvasClick drawingTriangleState ⟨5, 5⟩ 1000).areas.map AreaData.areaSqFt = [13] ∧
    (handleCanvasClick drawingTriangleState ⟨5, 5⟩ 1000).currentPolygon = [] ∧
    (handleCanvasClick drawingTriangleState ⟨5, 5⟩ 1000).isDrawingPolygon = false := by
  refine ⟨?_, ?_, ?_, ?_, ?_⟩ <;>
    norm_num [handleCanvasClick, drawingTriangleState, getFurnitureAtPoint, placeFurniture,
      distSq, calculatePolygonArea, shoelaceSum, List.range_succ, jsRound, GRID_SIZE]

/-- C2 counterexample: tapping `(50,40)` while placing a bed in the triangle
room appends the furniture item (the list grows to length 1) although the
corner `(65,55)` of the default 30×30 rectangle lies outside the polygon —
`placeFurniture` checks only the tapped centre, not the four corners. -/
theorem placeFurniture_accepts_corner_outside :
    areCornersInsideArea triangleAreaPoints ⟨50, 40⟩ ⟨30, 30⟩ = false ∧
    (placeFurniture placingBedState ⟨50, 40⟩ 7).areas.map
      (fun a => (a.furniture.getD []).length) = [1] := by
  constructor
  · norm_num [areCornersInsideArea, getFurnitureCorners, triangleAreaPoints,
      isPointInPolygon, pipStep, List.range_succ]
  · norm_num [placeFurniture, placingBedState, triangleArea, triangleAreaPoints,
      isPointInPolygon, pipStep, List.range_succ]

/-- C9: touch-start at t=0 schedules the long-press timer for t=600; the
touch-end at t=300 arrives with `e.touches` empty (the finger has lifted), so
`handleCanvasTouch` returns at its `e.touches.length !== 1` guard without
clearing the timer, and the `handleLongPress` callback still executes when
the 600 ms deadline passes — contradicting the specified cancellation. -/
theorem touchend_leaves_long_press_pending :
    (handleCanvasTouchV2
        (handleCanvasTouchV2 mobileIdleState TouchKind.touchstart [⟨40, 40⟩] 0 0 0)
        TouchKind.touchend [] 0 0 300).longPressTimer = some ⟨600, ⟨40, 40⟩⟩ ∧
    (fireLongPressIfDue
        (handleCanvasTouchV2
          (handleCanvasTouchV2 mobileIdleState TouchKind.touchstart [⟨40, 40⟩] 0 0 0)
          TouchKind.touchend [] 0 0 300) 600).2 = true := by
  constructor <;>
    norm_num [handleCanvasTouchV2, mobileIdleState, getCanvasPoint, snapToGrid, jsRound,
      GRID_SIZE, fireLongPressIfDue]

/-- C7 counterexample: importing `{"areas": "oops"}` through the mobile
`handleImportJSON` calls `setAreas` with the raw non-array value (the
registry is mutated) and surfaces no invalid-format failure, because only
truthiness of `data.areas` is checked — refuting the claim for this import
path. -/
theorem mobile_import_non_array_mutates :
    handleImportJSONMobile (Json.obj [("areas", Json.str ("oops"))])
      = some (Json.str ("oops")) ∧
    jIsArray (jGet (Json.obj [("areas", Json.str ("oops"))]) ("areas")) = false := by
  refine ⟨?_, ?_⟩
  · norm_num [handleImportJSONMobile, jGet, jTruthy, jIsArray]
    intro h
    exact absurd h (by decide)
  · norm_num [jIsArray, jGet]

/-- Grid snapping moves a coordinate by at most half a grid cell. -/
theorem snapToGrid_close (x : ℚ) : |snapToGrid x - x| ≤ GRID_SIZE / 2 := by
  unfold snapToGrid jsRound GRID_SIZE
  rw [abs_le]
  constructor
  · have h2 : (x / 20 + 1 / 2) - 1 < ((⌊x / 20 + 1 / 2⌋ : ℤ) : ℚ) := Int.sub_one_lt_floor _
    linarith
  · have h1 : ((⌊x / 20 + 1 / 2⌋ : ℤ) : ℚ) ≤ x / 20 + 1 / 2 := Int.floor_le _
    linarith

/-- C5: for every zoom level in the clamped range and every pan offset, the
screen-to-world transform of `getMousePos` and the world-to-screen transform
`toScreenX`/`toScreenY` are exact inverses on the un-snapped world point, and
the full round trip through the grid-snapped world point returns the original
canvas-relative screen point up to the snap tolerance of half a grid cell
scaled by the zoom. -/
theorem screen_world_round_trip (zoomLevel : ℚ) (panOffset : Point) (client : Point)
    (rectLeft rectTop : ℚ) (hlo : 3 / 10 ≤ zoomLevel) (hhi : zoomLevel ≤ 3) :
    toScreenX panOffset zoomLevel ((client.x - rectLeft) / zoomLevel - panOffset.x)
      = client.x - rectLeft ∧
    toScreenY panOffset zoomLevel ((client.y - rectTop) / zoomLevel - panOffset.y)
      = client.y - rectTop ∧
    |toScreenX panOffset zoomLevel (getMousePos zoomLevel panOffset client rectLeft rectTop).x
      - (client.x - rectLeft)| ≤ zoomLevel * (GRID_SIZE / 2) ∧
    |toScreenY panOffset zoomLevel (getMousePos zoomLevel panOffset client rectLeft rectTop).y
      - (client.y - rectTop)| ≤ zoomLevel * (GRID_SIZE / 2) := by
  have hz0 : (0 : ℚ) < zoomLevel := lt_of_lt_of_le (by norm_num) hlo
  have hz : zoomLevel ≠ 0 := ne_of_gt hz0
  have h1 : toScreenX panOffset zoomLevel ((client.x - rectLeft) / zoomLevel - panOffset.x)
      = client.x - rectLeft := by
    unfold toScreenX
    field_simp
    ring
  have h2 : toScreenY panOffset zoomLevel ((client.y - rectTop) / zoomLevel - panOffset.y)
      = client.y - rectTop := by
    unfold toScreenY
    field_simp
    ring
  refine ⟨h1, h2, ?_, ?_⟩
  · have hsnap := snapToGrid_close ((client.x - rectLeft) / zoomLevel - panOffset.x)
    have hkey : toScreenX panOffset zoomLevel
        (getMousePos zoomLevel panOffset client rectLeft rectTop).x - (client.x - rectLeft)
        = (snapToGrid ((client.x - rectLeft) / zoomLevel - panOffset.x)
            - ((client.x - rectLeft) / zoomLevel - panOffset.x)) * zoomLevel := by
      unfold toScreenX getMousePos
      field_simp
      ring
    rw [hkey, abs_mul, abs_of_pos hz0, mul_comm]
    exact mul_le_mul_of_nonneg_left hsnap (le_of_lt hz0)
  · have hsnap := snapToGrid_close ((client.y - rectTop) / zoomLevel - panOffset.y)
    have hkey : toScreenY panOffset zoomLevel
        (getMousePos zoomLevel panOffset client rectLeft rectTop).y - (client.y - rectTop)
        = (snapToGrid ((client.y - rectTop) / zoomLevel - panOffset.y)
            - ((client.y - rectTop) / zoomLevel - panOffset.y)) * zoomLevel := by
      unfold toScreenY getMousePos
      field_simp
      ring
    rw [hkey, abs_mul, abs_of_pos hz0, mul_comm]
    exact mul_le_mul_of_nonneg_left hsnap (le_of_lt hz0)

/-- Witness for C5 at zoom 1, no pan, screen point `(5,7)`. -/
theorem screen_world_round_trip_witness :
    ((3 : ℚ) / 10 ≤ 1 ∧ (1 : ℚ) ≤ 3) ∧
    (toScreenX ⟨0, 0⟩ 1 ((Point.mk 5 7).x - 0) / 1 - (Point.mk 0 0).x = (Point.mk 5 7).x - 0 ∨
     |toScreenX ⟨0, 0⟩ 1 (getMousePos 1 ⟨0, 0⟩ ⟨5, 7⟩ 0 0).x - ((5 : ℚ) - 0)|
       ≤ 1 * (GRID_SIZE / 2)) := by
  refine ⟨⟨by norm_num, by norm_num⟩, Or.inr ?_⟩
  exact (screen_world_round_trip 1 ⟨0, 0⟩ ⟨5, 7⟩ 0 0 (by norm_num) (by norm_num)).2.2.1

/-- C10: `resizeFurniture(furnitureId, newSize)` is unconditional: wherever it
is called from (the corner-handle path or the FurnitureToolbar width/height
controls and presets wired straight to it), the furniture item with the given
id ends with exactly `newSize` — no corner-containment check against the
owning polygon is performed by this operation — and items with other ids are
untouched. -/
theorem resizeFurniture_sets_size_unconditionally (areas : List AreaData)
    (furnitureId : String) (newSize : Size) (i j : ℕ) (hi : i < areas.length)
    (hj : j < ((areas.getD i defaultArea).furniture.getD []).length) :
    ((((areas.getD i defaultArea).furniture.getD []).getD j defaultFurnitureItem).id
        = furnitureId →
      ((((resizeFurniture areas furnitureId newSize).getD i defaultArea).furniture.getD
          []).getD j defaultFurnitureItem)
        = { ((areas.getD i defaultArea).furniture.getD []).getD j defaultFurnitureItem with
            size := newSize }) ∧
    ((((areas.getD i defaultArea).furniture.getD []).getD j defaultFurnitureItem).id
        ≠ furnitureId →
      ((((resizeFurniture areas furnitureId newSize).getD i defaultArea).furniture.getD
          []).getD j defaultFurnitureItem)
        = ((areas.getD i defaultArea).furniture.getD []).getD j defaultFurnitureItem) := by
  have hlen : i < (resizeFurniture areas furnitureId newSize).length := by
    simpa [resizeFurniture] using hi
  have key : (((resizeFurniture areas furnitureId newSize).getD i defaultArea).furniture.getD
      []).getD j defaultFurnitureItem
      = if (((areas.getD i defaultArea).furniture.getD []).getD j defaultFurnitureItem).id
            = furnitureId then
          { ((areas.getD i defaultArea).furniture.getD []).getD j defaultFurnitureItem with
            size := newSize }
        else ((areas.getD i defaultArea).furniture.getD []).getD j defaultFurnitureItem := by
    rw [List.getD_eq_getElem _ _ hlen, List.getD_eq_getElem _ _ hi]
    rw [List.getD_eq_getElem _ _ hi] at hj
    have hfl : ((resizeFurniture areas furnitureId newSize)[i]).furniture.getD []
        = ((areas[i]).furniture.getD []).map (fun furniture =>
            if furniture.id = furnitureId then { furniture with size := newSize }
            else furniture) := by
      simp only [resizeFurniture, List.getElem_map]
      cases (areas[i]).furniture <;> simp
    rw [hfl]
    have hjm : j < (((areas[i]).furniture.getD []).map (fun furniture =>
        if furniture.id = furnitureId then { furniture with size := newSize }
        else furniture)).length := by simpa using hj
    rw [List.getD_eq_getElem _ _ hjm, List.getD_eq_getElem _ _ hj, List.getElem_map]
  constructor
  · intro h
    rw [key, if_pos h]
  · intro h
    rw [key, if_neg h]

/-- Witness for C10: resizing `demoBed` to 400×400 writes exactly that size
even though the resulting rectangle pokes far outside the triangle room. -/
theorem resizeFurniture_sets_size_unconditionally_witness :
    ((((resizeFurniture demoAreas ("bed1") ⟨400, 400⟩).getD 0 defaultArea).furniture.getD
        []).getD 0 defaultFurnitureItem)
      = { demoBed with size := ⟨400, 400⟩ } ∧
    areCornersInsideArea triangleAreaPoints demoBed.position ⟨400, 400⟩ = false := by
  constructor
  · have h := (resizeFurniture_sets_size_unconditionally demoAreas ("bed1") ⟨400, 400⟩ 0 0
      (by norm_num [demoAreas]) (by norm_num [demoAreas, triangleArea, demoBed])).1
      (by norm_num [demoAreas, triangleArea, demoBed])
    rw [h]
    norm_num [demoAreas, triangleArea, demoBed]
  · norm_num [areCornersInsideArea, getFurnitureCorners, triangleAreaPoints, demoBed,
      isPointInPolygon, pipStep, List.range_succ]

/-- Updating the furniture lists of an area leaves `furniture.getD []` as the
mapped list. -/
theorem furnGetD_update (a : AreaData) (g : FurnitureItem → FurnitureItem) :
    ({ a with furniture := a.furniture.map (List.map g) } : AreaData).furniture.getD []
      = (a.furniture.getD []).map g := by
  cases a.furniture <;> rfl

/-- `allFurniture` of a furniture-only registry update is the mapped flat
list. -/
theorem allFurniture_update (areas : List AreaData) (g : FurnitureItem → FurnitureItem) :
    allFurniture (areas.map (fun a => { a with furniture := a.furniture.map (List.map g) }))
      = (allFurniture areas).map g := by
  unfold allFurniture
  induction areas with
  | nil => rfl
  | cons a t ih =>
    simp only [List.map_cons, List.flatMap_cons, List.map_append, ih]
    rw [furnGetD_update]

/-- Area lookup by id commutes with a furniture-only registry update. -/
theorem find?_area_update (areas : List AreaData) (g : FurnitureItem → FurnitureItem)
    (aid : String) :
    (areas.map (fun a => { a with furniture := a.furniture.map (List.map g) })).find?
        (fun a => a.id == aid)
      = (areas.find? (fun a => a.id == aid)).map
          (fun a => { a with furniture := a.furniture.map (List.map g) }) := by
  rw [List.find?_map]
  rfl

/-- The owner polygon of any item is untouched by a furniture-only registry
update. -/
theorem ownerPolygon_update (areas : List AreaData) (g : FurnitureItem → FurnitureItem)
    (f : FurnitureItem) :
    ownerPolygon (areas.map (fun a => { a with furniture := a.furniture.map (List.map g) })) f
      = ownerPolygon areas f := by
  unfold ownerPolygon
  rw [find?_area_update]
  cases areas.find? (fun a => a.id == f.areaId) <;> rfl

/-- A furniture-only registry update through an id-preserving function keeps
the furniture ids unique. -/
theorem uniqueIds_update (areas : List AreaData) (g : FurnitureItem → FurnitureItem)
    (hg : ∀ f, (g f).id = f.id) (h : uniqueFurnitureIds areas) :
    uniqueFurnitureIds
      (areas.map (fun a => { a with furniture := a.furniture.map (List.map g) })) := by
  unfold uniqueFurnitureIds at h ⊢
  rw [allFurniture_update, List.map_map]
  have hcomp : FurnitureItem.id ∘ g = FurnitureItem.id := funext hg
  rw [hcomp]
  exact h

/-- `FurnFrame` is reflexive. -/
theorem furnFrame_refl (rid : String) (f : FurnitureItem) : FurnFrame rid f f :=
  ⟨rfl, rfl, rfl, rfl, rfl, fun _ => rfl⟩

/-- `AreaFrame` is reflexive. -/
theorem areaFrame_refl (rid : String) (a : AreaData) : AreaFrame rid a a :=
  ⟨rfl, rfl, rfl, rfl, rfl, rfl, List.forall₂_same.2 (fun f _ => furnFrame_refl rid f)⟩

/-- Any registry satisfies the resize frame relation with itself. -/
theorem forall₂_areaFrame_refl (rid : String) (areas : List AreaData) :
    List.Forall₂ (AreaFrame rid) areas areas :=
  List.forall₂_same.2 (fun a _ => areaFrame_refl rid a)

/-- One item of a `resizeFurniture` pass satisfies the frame condition. -/
theorem furnFrame_resize (rid : String) (ns : Size) (f : FurnitureItem) :
    FurnFrame rid f (if f.id = rid then { f with size := ns } else f) := by
  by_cases h : f.id = rid
  · rw [if_pos h]
    exact ⟨rfl, rfl, rfl, rfl, rfl, fun hne => absurd h hne⟩
  · rw [if_neg h]
    exact furnFrame_refl rid f

/-- One area of a `resizeFurniture` pass satisfies the frame condition. -/
theorem areaFrame_resize (rid : String) (ns : Size) (a : AreaData) :
    AreaFrame rid a
      { a with furniture := a.furniture.map (List.map (fun f =>
          if f.id = rid then { f with size := ns } else f)) } := by
  refine ⟨rfl, rfl, rfl, rfl, rfl, ?_, ?_⟩
  · cases a.furniture <;> rfl
  · rw [furnGetD_update]
    induction a.furniture.getD [] with
    | nil => exact List.Forall₂.nil
    | cons f t ih => exact List.Forall₂.cons (furnFrame_resize rid ns f) ih

/-- `resizeFurniture` satisfies the frame condition on the whole registry. -/
theorem resizeFurniture_frame (rid : String) (ns : Size) (areas : List AreaData) :
    List.Forall₂ (AreaFrame rid) areas (resizeFurniture areas rid ns) := by
  unfold resizeFurniture
  induction areas with
  | nil => exact List.Forall₂.nil
  | cons a t ih => exact List.Forall₂.cons (areaFrame_resize rid ns a) ih

/-- C8: a resize pointer-move event — accepted or rejected — never moves any
furniture item's centre: every area keeps its id, type, points, square
footage and colour, every furniture item keeps its id, name, position,
colour and `areaId`, and only the size of the item being resized (id `rid`)
may change. -/
theorem resize_event_preserves_position (s : MouseState) (point : Point) (rid : String)
    (handle : ResizeHandle) (h1 : s.isResizingFurniture = true)
    (h2 : s.resizingFurnitureId = some rid) (h3 : s.resizeHandle = some handle) :
    List.Forall₂ (AreaFrame rid) s.areas (handleCanvasMouseMove s point).areas := by
  unfold handleCanvasMouseMove
  rw [h1, h2, h3]
  dsimp only
  rcases hFind : (allFurniture s.areas).find? (fun f => f.id == rid) with _ | item
  · rw [hFind]
    exact forall₂_areaFrame_refl rid s.areas
  · rw [hFind]
    dsimp only
    rcases hArea : s.areas.find? (fun a => a.id == item.areaId) with _ | area
    · rw [hArea]
      exact forall₂_areaFrame_refl rid s.areas
    · rw [hArea]
      dsimp only
      by_cases hC : areCornersInsideArea area.points item.position
          (proposedResize handle item point) = true
      · rw [if_pos hC]
        have hid : item.id = rid := by
          have := List.find?_some hFind
          simpa using this
        rw [← hid]
        exact resizeFurniture_frame item.id (proposedResize handle item point) s.areas
      · rw [if_neg (by simpa using hC)]
        exact forall₂_areaFrame_refl rid s.areas

/-- Witness for C8: a south-east handle resize event on `demoBed`. -/
theorem resize_event_preserves_position_witness :
    List.Forall₂ (AreaFrame ("bed1")) demoAreas
      (handleCanvasMouseMove demoResizeState ⟨55, 40⟩).areas :=
  resize_event_preserves_position demoResizeState ⟨55, 40⟩ ("bed1") ResizeHandle.se
    rfl rfl rfl

/-- Outcome of the drag block: either the state is unchanged, or the corner
check succeeded for the dragged item at the proposed centre and exactly that
item's position was rewritten. -/
theorem mouseMoveDrag_result (s : MouseState) (p : Point) :
    (mouseMoveDrag s p).areas = s.areas ∨
    (∃ draggedItem area,
      s.areas.find? (fun a => a.id == draggedItem.areaId) = some area ∧
      (allFurniture s.areas).find? (fun f => f.id == draggedItem.id) = some draggedItem ∧
      areCornersInsideArea area.points p draggedItem.size = true ∧
      (mouseMoveDrag s p).areas = s.areas.map (fun a =>
        { a with furniture := a.furniture.map (List.map (fun furniture =>
            if furniture.id = draggedItem.id then { furniture with position := p }
            else furniture)) })) := by
  unfold mouseMoveDrag
  rcases hD : s.isDraggingFurniture with _ | _
  · try rw [hD]
    exact Or.inl rfl
  · try rw [hD]
    rcases hDid : s.draggedFurniture with _ | did
    · try rw [hDid]
      exact Or.inl rfl
    · try rw [hDid]
      dsimp only
      rcases hFind : (allFurniture s.areas).find? (fun f => f.id == did) with _ | item
      · try rw [hFind]
        exact Or.inl rfl
      · try rw [hFind]
        dsimp only
        have hid : item.id = did := by simpa using List.find?_some hFind
        rcases hArea : s.areas.find? (fun a => a.id == item.areaId) with _ | area
        · try rw [hArea]
          exact Or.inl rfl
        · try rw [hArea]
          dsimp only
          by_cases hC : areCornersInsideArea area.points p item.size = true
          · rw [if_pos hC]
            refine Or.inr ⟨item, area, hArea, ?_, hC, ?_⟩
            · have hpred : (fun f : FurnitureItem => f.id == item.id)
                  = (fun f : FurnitureItem => f.id == did) := by
                funext f
                rw [hid]
              rw [hpred]
              exact hFind
            · rw [hid]
          · rw [if_neg (by simpa using hC)]
            exact Or.inl rfl

/-- Outcome of one pointer-move event: the registry is unchanged, or it is a
furniture-only rewrite of the found item (size for resize, position for drag)
that happened strictly under a successful `areCornersInsideArea` check
against the polygon of the area its `areaId` designates. -/
theorem mouseMove_result (s : MouseState) (p : Point) :
    (handleCanvasMouseMove s p).areas = s.areas ∨
    (∃ item area proposed,
      s.areas.find? (fun a => a.id == item.areaId) = some area ∧
      (allFurniture s.areas).find? (fun f => f.id == item.id) = some item ∧
      areCornersInsideArea area.points item.position proposed = true ∧
      (handleCanvasMouseMove s p).areas = s.areas.map (fun a =>
        { a with furniture := a.furniture.map (List.map (fun furniture =>
            if furniture.id = item.id then { furniture with size := proposed }
            else furniture)) })) ∨
    (∃ draggedItem area,
      s.areas.find? (fun a => a.id == draggedItem.areaId) = some area ∧
      (allFurniture s.areas).find? (fun f => f.id == draggedItem.id) = some draggedItem ∧
      areCornersInsideArea area.points p draggedItem.size = true ∧
      (handleCanvasMouseMove s p).areas = s.areas.map (fun a =>
        { a with furniture := a.furniture.map (List.map (fun furniture =>
            if furniture.id = draggedItem.id then { furniture with position := p }
            else furniture)) })) := by
  unfold handleCanvasMouseMove
  rcases hR : s.isResizingFurniture with _ | _
  · try rw [hR]
    dsimp only
    rcases mouseMoveDrag_result s p with h | h
    · exact Or.inl h
    · exact Or.inr (Or.inr h)
  · try rw [hR]
    rcases hRid : s.resizingFurnitureId with _ | rid
    · try rw [hRid]
      dsimp only
      rcases mouseMoveDrag_result s p with h | h
      · exact Or.inl h
      · exact Or.inr (Or.inr h)
    · try rw [hRid]
      rcases hH : s.resizeHandle with _ | handle
      · try rw [hH]
        dsimp only
        rcases mouseMoveDrag_result s p with h | h
        · exact Or.inl h
        · exact Or.inr (Or.inr h)
      · try rw [hH]
        dsimp only
        rcases hFind : (allFurniture s.areas).find? (fun f => f.id == rid) with _ | item
        · try rw [hFind]
          exact Or.inl rfl
        · try rw [hFind]
          dsimp only
          have hid : item.id = rid := by simpa using List.find?_some hFind
          rcases hArea : s.areas.find? (fun a => a.id == item.areaId) with _ | area
          · try rw [hArea]
            exact Or.inl rfl
          · try rw [hArea]
            dsimp only
            by_cases hC : areCornersInsideArea area.points item.position
                (proposedResize handle item p) = true
            · rw [if_pos hC]
              refine Or.inr (Or.inl ⟨item, area, proposedResize handle item p,
                hArea, ?_, hC, ?_⟩)
              · have hpred : (fun f : FurnitureItem => f.id == item.id)
                    = (fun f : FurnitureItem => f.id == rid) := by
                  funext f
                  rw [hid]
                rw [hpred]
                exact hFind
              · dsimp only
                unfold resizeFurniture
                rfl
            · rw [if_neg (by simpa using hC)]
              exact Or.inl rfl

/-- One pointer-move event can only change a furniture item into one whose
four corners were just checked inside its owner polygon: every item of the
post-state either already existed, or satisfies the corner containment. -/
theorem mouseMove_step_containment (s : MouseState) (p : Point)
    (huniq : uniqueFurnitureIds s.areas) :
    ∀ fNew ∈ allFurniture (handleCanvasMouseMove s p).areas,
      fNew ∈ allFurniture s.areas ∨
      areCornersInsideArea (ownerPolygon (handleCanvasMouseMove s p).areas fNew)
        fNew.position fNew.size = true := by
  intro fNew hmem
  rcases mouseMove_result s p with heq
    | ⟨item, area, proposed, hArea, hFind, hC, heq⟩
    | ⟨item, area, hArea, hFind, hC, heq⟩
  · rw [heq] at hmem
    exact Or.inl hmem
  · rw [heq] at hmem ⊢
    rw [allFurniture_update] at hmem
    rcases List.mem_map.1 hmem with ⟨f, hf, hgf⟩
    by_cases hfid : f.id = item.id
    · right
      have hitem_mem : item ∈ allFurniture s.areas := List.mem_of_find?_eq_some hFind
      have hfi : f = item := List.inj_on_of_nodup_map huniq hf hitem_mem hfid
      have hfnew : fNew = { item with size := proposed } := by
        rw [← hgf, hfi, if_pos rfl]
      have h1 : fNew.areaId = item.areaId := by rw [hfnew]
      have h2 : fNew.position = item.position := by rw [hfnew]
      have h3 : fNew.size = proposed := by rw [hfnew]
      rw [ownerPolygon_update]
      unfold ownerPolygon
      rw [h1, hArea, h2, h3]
      exact hC
    · left
      have : fNew = f := by rw [← hgf, if_neg hfid]
      rw [this]
      exact hf
  · rw [heq] at hmem ⊢
    rw [allFurniture_update] at hmem
    rcases List.mem_map.1 hmem with ⟨f, hf, hgf⟩
    by_cases hfid : f.id = item.id
    · right
      have hitem_mem : item ∈ allFurniture s.areas := List.mem_of_find?_eq_some hFind
      have hfi : f = item := List.inj_on_of_nodup_map huniq hf hitem_mem hfid
      have hfnew : fNew = { item with position := p } := by
        rw [← hgf, hfi, if_pos rfl]
      have h1 : fNew.areaId = item.areaId := by rw [hfnew]
      have h2 : fNew.position = p := by rw [hfnew]
      have h3 : fNew.size = item.size := by rw [hfnew]
      rw [ownerPolygon_update]
      unfold ownerPolygon
      rw [h1, hArea, h2, h3]
      exact hC
    · left
      have : fNew = f := by rw [← hgf, if_neg hfid]
      rw [this]
      exact hf

/-- A pointer-move event keeps the furniture ids unique. -/
theorem uniqueIds_step (s : MouseState) (p : Point) (h : uniqueFurnitureIds s.areas) :
    uniqueFurnitureIds (handleCanvasMouseMove s p).areas := by
  rcases mouseMove_result s p with heq
    | ⟨item, area, proposed, hArea, hFind, hC, heq⟩
    | ⟨item, area, hArea, hFind, hC, heq⟩
  · rw [heq]
    exact h
  · rw [heq]
    refine uniqueIds_update s.areas _ (fun f => ?_) h
    by_cases hfid : f.id = item.id <;> simp [hfid]
  · rw [heq]
    refine uniqueIds_update s.areas _ (fun f => ?_) h
    by_cases hfid : f.id = item.id <;> simp [hfid]

/-- C1: along every sequence of pointer-move events applied from a registry
with unique furniture ids, each step either leaves a furniture item unchanged
(in particular whenever the corner check rejects the proposal) or produces an
item whose four rectangle corners all lie inside its owning area's polygon —
so every accepted drag/resize step maintains the four-corner containment. -/
theorem furniture_moves_respect_containment (s : MouseState) (moves : List Point)
    (huniq : uniqueFurnitureIds s.areas) (i : ℕ) (hi : i < moves.length) :
    ∀ fNew ∈ allFurniture ((applyMouseMoves s (moves.take (i + 1))).areas),
      fNew ∈ allFurniture ((applyMouseMoves s (moves.take i)).areas) ∨
      areCornersInsideArea
        (ownerPolygon ((applyMouseMoves s (moves.take (i + 1))).areas) fNew)
        fNew.position fNew.size = true := by
  have huniq_n : ∀ n, uniqueFurnitureIds ((applyMouseMoves s (moves.take n)).areas) := by
    intro n
    induction n with
    | zero => simpa [applyMouseMoves] using huniq
    | succ k ih =>
      rcases hk : moves[k]? with _ | m
      · have htake : moves.take (k + 1) = moves.take k := by
          rw [List.take_succ, hk]
          simp
        rw [htake]
        exact ih
      · have htake : moves.take (k + 1) = moves.take k ++ [m] := by
          rw [List.take_succ, hk]
          rfl
        have happ : applyMouseMoves s (moves.take (k + 1))
            = handleCanvasMouseMove (applyMouseMoves s (moves.take k)) m := by
          rw [htake]
          unfold applyMouseMoves
          rw [List.foldl_append]
          rfl
        rw [happ]
        exact uniqueIds_step _ m ih
  have hsplit : applyMouseMoves s (moves.take (i + 1))
      = handleCanvasMouseMove (applyMouseMoves s (moves.take i)) (moves.getD i ⟨0, 0⟩) := by
    have hk : moves[i]? = some (moves.getD i ⟨0, 0⟩) := by
      rw [List.getD_eq_getElem _ _ hi]
      exact List.getElem?_eq_getElem hi
    have htake : moves.take (i + 1) = moves.take i ++ [moves.getD i ⟨0, 0⟩] := by
      rw [List.take_succ, hk]
      rfl
    rw [htake]
    unfold applyMouseMoves
    rw [List.foldl_append]
    rfl
  rw [hsplit]
  exact mouseMove_step_containment _ (moves.getD i ⟨0, 0⟩) (huniq_n i)

/-- Witness for C1: one resize move event on `demoBed` in the triangle room. -/
theorem furniture_moves_respect_containment_witness :
    uniqueFurnitureIds demoResizeState.areas ∧ 0 < ([(⟨55, 40⟩ : Point)]).length ∧
    (∀ fNew ∈
        allFurniture ((applyMouseMoves demoResizeState ([⟨55, 40⟩].take (0 + 1))).areas),
      fNew ∈ allFurniture ((applyMouseMoves demoResizeState ([⟨55, 40⟩].take 0)).areas) ∨
      areCornersInsideArea
        (ownerPolygon ((applyMouseMoves demoResizeState ([⟨55, 40⟩].take (0 + 1))).areas) fNew)
        fNew.position fNew.size = true) := by
  refine ⟨?_, by norm_num, furniture_moves_respect_containment demoResizeState [⟨55, 40⟩]
    ?_ 0 (by norm_num)⟩ <;>
    simp [uniqueFurnitureIds, allFurniture, demoResizeState, demoAreas, triangleArea, demoBed]

/-- Areas of `placeFurniture` keep their point lists: the operation touches
only furniture lists and selection flags. -/
theorem placeFurniture_areas_points (s : ClickState) (p : Point) (t : ℤ) :
    ∀ a ∈ (placeFurniture s p t).areas, ∃ a0 ∈ s.areas, a.points = a0.points := by
  intro a ha
  unfold placeFurniture at ha
  split at ha
  · split at ha
    · split at ha
      · dsimp only at ha
        rcases List.mem_map.1 ha with ⟨a0, ha0, heq0⟩
        refine ⟨a0, ha0, ?_⟩
        rw [← heq0]
        split <;> rfl
      · exact ⟨a, ha, rfl⟩
    · exact ⟨a, ha, rfl⟩
  · exact ⟨a, ha, rfl⟩

/-- Outcome of one desktop click on the area registry: unchanged, a
furniture-only placement rewrite, or the polygon close that appends one area
whose points are the accumulated polygon — and the close fires only with
more than 2 accumulated points. -/
theorem click_areas_result (s : ClickState) (p : Point) (t : ℤ) :
    (handleCanvasClick s p t).areas = (placeFurniture { s with lastClickTime := t } p t).areas ∨
    (handleCanvasClick s p t).areas = s.areas ∨
    (2 < s.currentPolygon.length ∧
      (handleCanvasClick s p t).areas = s.areas ++
        [{ id := "area-" ++ toString t
         , type := s.selectedAreaType
         , points := s.currentPolygon
         , areaSqFt := calculatePolygonArea s.currentPolygon
         , color := getAreaColor s.selectedAreaType
         , furniture := none }]) := by
  unfold handleCanvasClick
  dsimp only
  split
  · exact Or.inl rfl
  · split
    · split
      · exact Or.inr (Or.inl rfl)
      · exact Or.inr (Or.inl rfl)
    · split
      · exact Or.inr (Or.inl rfl)
      · split
        · split
          case _ hcond => exact Or.inr (Or.inr ⟨hcond.1, rfl⟩)
          · exact Or.inr (Or.inl rfl)
        · exact Or.inr (Or.inl rfl)

/-- One desktop click preserves the ≥3-points area invariant. -/
theorem click_step_min_points (s : ClickState) (p : Point) (t : ℤ)
    (h : ∀ a ∈ s.areas, 3 ≤ a.points.length) :
    ∀ a ∈ (handleCanvasClick s p t).areas, 3 ≤ a.points.length := by
  intro a ha
  rcases click_areas_result s p t with heq | heq | ⟨hlen, heq⟩
  · rw [heq] at ha
    rcases placeFurniture_areas_points _ p t a ha with ⟨a0, ha0, hpts⟩
    rw [hpts]
    exact h a0 ha0
  · rw [heq] at ha
    exact h a ha
  · rw [heq] at ha
    rcases List.mem_append.1 ha with hin | hin
    · exact h a hin
    · rcases List.mem_singleton.1 hin with rfl
      simpa using hlen

/-- Outcome of one mobile tap on the area registry: unchanged, a
furniture-only placement rewrite, or the polygon close that appends one area
whose points are the accumulated polygon — and the close fires only with at
least 3 accumulated points. -/
theorem tap_areas_result (s : MobileState) (p : Point) (t : ℤ) :
    (handleCanvasTap s p t).areas = s.areas ∨
    (∃ aid : String, ∃ newF : FurnitureItem,
      (handleCanvasTap s p t).areas = s.areas.map (fun area =>
        if area.id = aid then
          { area with furniture := some (area.furniture.getD [] ++ [newF]) }
        else area)) ∨
    (3 ≤ s.currentPolygon.length ∧
      (handleCanvasTap s p t).areas = s.areas ++
        [{ id := "area-" ++ toString t
         , type := s.selectedAreaType
         , points := s.currentPolygon
         , areaSqFt := calculatePolygonArea s.currentPolygon
         , color := getAreaColor s.selectedAreaType
         , furniture := some [] }]) := by
  unfold handleCanvasTap
  split
  · split
    · split
      · exact Or.inr (Or.inl ⟨_, _, rfl⟩)
      · exact Or.inl rfl
    · exact Or.inl rfl
  ·
    unfold mobileTapAfterPlacement
    split
    · exact Or.inl rfl
    · dsimp only
      split
      · exact Or.inl rfl
      · split
        case _ hcond => exact Or.inr (Or.inr ⟨hcond.2, rfl⟩)
        · exact Or.inl rfl

/-- One mobile tap preserves the ≥3-points area invariant. -/
theorem tap_step_min_points (s : MobileState) (p : Point) (t : ℤ)
    (h : ∀ a ∈ s.areas, 3 ≤ a.points.length) :
    ∀ a ∈ (handleCanvasTap s p t).areas, 3 ≤ a.points.length := by
  intro a ha
  rcases tap_areas_result s p t with heq | ⟨aid, newF, heq⟩ | ⟨hlen, heq⟩
  · rw [heq] at ha
    exact h a ha
  · rw [heq] at ha
    rcases List.mem_map.1 ha with ⟨a0, ha0, heq0⟩
    have hpts : a.points = a0.points := by
      rw [← heq0]
      by_cases hid : a0.id = aid <;> simp [hid]
    rw [hpts]
    exact h a0 ha0
  · rw [heq] at ha
    rcases List.mem_append.1 ha with hin | hin
    · exact h a hin
    · rcases List.mem_singleton.1 hin with rfl
      simpa using hlen

/-- C4: every area ever present in the registry has at least 3 points, on
both the desktop and the mobile tap state machines: the invariant is
preserved by arbitrary click/tap sequences, and a tap within the close
threshold of the first vertex while fewer than 3 points are accumulated is
an ordinary add-point — the registry is unchanged and the point is appended
to the working polygon. -/
theorem areas_have_min_three_points :
    (∀ (s : ClickState) (events : List (Point × ℤ)),
      (∀ a ∈ s.areas, 3 ≤ a.points.length) →
      ∀ a ∈ (applyClicks s events).areas, 3 ≤ a.points.length) ∧
    (∀ (s : MobileState) (events : List (Point × ℤ)),
      (∀ a ∈ s.areas, 3 ≤ a.points.length) →
      ∀ a ∈ (applyTaps s events).areas, 3 ≤ a.points.length) ∧
    (∀ (s : ClickState) (p : Point) (t : ℤ),
      s.isPlacingFurniture = false →
      getFurnitureAtPoint s.areas p = none →
      s.interactionMode = InteractionMode.area →
      s.isDrawingPolygon = true →
      s.currentPolygon.length < 3 →
      distSq p (s.currentPolygon.headD ⟨0, 0⟩) < 10 ^ 2 →
      (handleCanvasClick s p t).areas = s.areas ∧
      (handleCanvasClick s p t).currentPolygon = s.currentPolygon ++ [p]) ∧
    (∀ (s : MobileState) (p : Point) (t : ℤ),
      s.isPlacingFurniture = false →
      getFurnitureAtPoint s.areas p = none →
      s.isDrawingPolygon = true →
      s.currentPolygon.length < 3 →
      distSq p (s.currentPolygon.headD ⟨0, 0⟩) < 40 ^ 2 →
      (handleCanvasTap s p t).areas = s.areas ∧
      (handleCanvasTap s p t).currentPolygon = s.currentPolygon ++ [p]) := by
  refine ⟨?_, ?_, ?_, ?_⟩
  · intro s events h
    induction events generalizing s with
    | nil => exact h
    | cons e rest ih => exact ih _ (click_step_min_points s e.1 e.2 h)
  · intro s events h
    induction events generalizing s with
    | nil => exact h
    | cons e rest ih => exact ih _ (tap_step_min_points s e.1 e.2 h)
  · intro s p t hP hF hM hD hlen hdist
    have hnot : ¬(2 < s.currentPolygon.length ∧
        distSq p (s.currentPolygon.headD ⟨0, 0⟩) < 10 ^ 2) := by
      rintro ⟨h1, -⟩
      omega
    unfold handleCanvasClick
    dsimp only
    rw [hP]
    simp only [Bool.false_eq_true, if_false]
    rw [hF]
    dsimp only
    rw [hM]
    simp only [ne_eq, not_true_eq_false, if_false]
    rw [hD]
    simp only [if_true]
    rw [if_neg hnot]
    exact ⟨rfl, rfl⟩
  · intro s p t hP hF hD hlen hdist
    have hnot : ¬(distSq p (s.currentPolygon.headD ⟨0, 0⟩) < 40 ^ 2 ∧
        3 ≤ s.currentPolygon.length) := by
      rintro ⟨-, h2⟩
      omega
    unfold handleCanvasTap
    rw [hP]
    dsimp only
    unfold mobileTapAfterPlacement
    rw [hF]
    dsimp only
    rw [hD]
    simp only [not_true_eq_false, Bool.false_eq_true, if_false]
    rw [if_neg hnot]
    exact ⟨rfl, rfl⟩

/-- Witness for C4: one click on an empty registry keeps the invariant, and a
near-first-point tap with 2 accumulated points appends the point. -/
theorem areas_have_min_three_points_witness :
    (∀ a ∈ (applyClicks drawingTriangleState [(⟨0, 0⟩, 1)]).areas, 3 ≤ a.points.length) ∧
    (handleCanvasClick twoPointState ⟨5, 5⟩ 9).currentPolygon
      = twoPointState.currentPolygon ++ [⟨5, 5⟩] := by
  constructor
  · exact areas_have_min_three_points.1 drawingTriangleState [(⟨0, 0⟩, 1)]
      (by simp [drawingTriangleState])
  · exact (areas_have_min_three_points.2.2.1 twoPointState ⟨5, 5⟩ 9 rfl
      (by simp [getFurnitureAtPoint, twoPointState, drawingTriangleState]) rfl rfl
      (by norm_num [twoPointState, drawingTriangleState])
      (by norm_num [twoPointState, drawingTriangleState, distSq])).2

/-- C2 amended: furniture creation checks only that the tapped centre is
inside the target polygon, in both placement paths.  With a pending
selection and an existing target area, the desktop `placeFurniture` (30×30
default) and the mobile `handleCanvasTap` placement branch (60×40 default)
are no-ops when the centre is outside, and append exactly one item centred
at the tap when the centre is inside — the four rectangle corners are never
consulted. -/
theorem placement_checks_center_only :
    (∀ (s : ClickState) (point : Point) (now : ℤ) (selFurn selArea : String)
        (area : AreaData),
      s.selectedFurniture = some selFurn →
      s.selectedArea = some selArea →
      s.areas.find? (fun a => a.id == selArea) = some area →
      ((isPointInPolygon point area.points = false →
        placeFurniture s point now = s) ∧
       (isPointInPolygon point area.points = true →
        (placeFurniture s point now).areas = s.areas.map (fun a =>
          if a.id = selArea then
            { a with furniture := some (a.furniture.getD [] ++
                [{ id := "furniture-" ++ toString now
                 , name := selFurn
                 , position := point
                 , areaId := selArea
                 , size := ⟨30, 30⟩
                 , color := some (defaultFurnitureColor selFurn) }]) }
          else a)))) ∧
    (∀ (s : MobileState) (point : Point) (now : ℤ) (pending : PendingFurniture)
        (targetArea : AreaData),
      s.isPlacingFurniture = true →
      s.pendingFurniture = some pending →
      s.areas.find? (fun a => a.id == pending.areaId) = some targetArea →
      ((isPointInPolygon point targetArea.points = false →
        handleCanvasTap s point now = s) ∧
       (isPointInPolygon point targetArea.points = true →
        (handleCanvasTap s point now).areas = s.areas.map (fun area =>
          if area.id = pending.areaId then
            { area with furniture := some (area.furniture.getD [] ++
                [{ id := "furniture-" ++ toString now
                 , name := pending.name
                 , position := point
                 , areaId := pending.areaId
                 , size := ⟨60, 40⟩
                 , color := some ("#8B4513") }]) }
          else area)))) := by
  constructor
  · intro s point now selFurn selArea area hSF hSA hFind
    unfold placeFurniture
    rw [hSF, hSA]
    dsimp only
    rw [hFind]
    dsimp only
    constructor
    · intro hOut
      rw [hOut]
      simp
    · intro hIn
      rw [hIn]
      simp
  · intro s point now pending targetArea hP hPF hFind
    unfold handleCanvasTap
    rw [hP, hPF]
    dsimp only
    rw [hFind]
    dsimp only
    constructor
    · intro hOut
      rw [hOut]
      simp
    · intro hIn
      rw [hIn]
      simp

/-- Witness for C2 amended: a tap at `(90,90)`, outside the triangle room,
leaves the placement state untouched. -/
theorem placement_checks_center_only_witness :
    placeFurniture placingBedState ⟨90, 90⟩ 3 = placingBedState :=
  (placement_checks_center_only.1 placingBedState ⟨90, 90⟩ 3 ("bed") ("A") triangleArea
      rfl rfl (by simp [placingBedState, triangleArea])).1
    (by norm_num [isPointInPolygon, pipStep, triangleArea, triangleAreaPoints,
      List.range_succ])

/-- C7 amended: the desktop `handleImportFile` rejects any parsed input whose
`areas` is missing or not an array, leaving the registry untouched with a
user-visible failure, and whenever it does replace the registry the
validation necessarily passed; the mobile `handleImportJSON`, by contrast,
stores `data.areas` verbatim exactly when the field is truthy — with no
array check and no failure message when the field is missing. -/
theorem import_rejects_non_array_atomically :
    (∀ (data : Json) (old : List AreaData) (now : ℤ),
      jIsArray (jGet data ("areas")) = false →
      handleImportFile data old now = (old, false)) ∧
    (∀ (data : Json) (old : List AreaData) (now : ℤ),
      (handleImportFile data old now).2 = true →
      jIsArray (jGet data ("areas")) = true) ∧
    (∀ data : Json,
      handleImportJSONMobile data = none ↔ jTruthy (jGet data ("areas")) = false) := by
  refine ⟨?_, ?_, ?_⟩
  · intro data old now h
    unfold handleImportFile
    rw [if_pos (Or.inr h)]
  · intro data old now h
    by_cases hA : jIsArray (jGet data ("areas")) = true
    · exact hA
    · exfalso
      have hA' : jIsArray (jGet data ("areas")) = false := by
        revert hA
        cases jIsArray (jGet data ("areas")) <;> simp
      unfold handleImportFile at h
      rw [if_pos (Or.inr hA')] at h
      simp at h
  · intro data
    unfold handleImportJSONMobile
    by_cases hT : jTruthy (jGet data ("areas")) = true
    · rw [if_pos hT]
      constructor
      · intro h
        rw [h] at hT
        exact absurd hT (by decide)
      · intro h
        rw [h] at hT
        exact absurd hT (by decide)
    · have hT' : jTruthy (jGet data ("areas")) = false := by
        revert hT
        cases jTruthy (jGet data ("areas")) <;> simp
      rw [if_neg hT]
      simp [hT']

/-- Witness for C7: importing `{"areas": 0}` through the desktop path leaves
the registry untouched and reports failure. -/
theorem import_rejects_non_array_atomically_witness :
    handleImportFile (Json.obj [("areas", Json.num 0)]) [triangleArea] 5
      = ([triangleArea], false) :=
  import_rejects_non_array_atomically.1 (Json.obj [("areas", Json.num 0)]) [triangleArea] 5
    (by simp [jIsArray, jGet])
